import Mathlib

/-!
Shallow embedding of the PerToken contract (src/src/lib.rs).

The contract stores `PaymentInvoice`s and `PaymentRecord`s in a persistent
key-value store keyed by `DataKey::PaymentInvoice(payment_id)` and
`DataKey::PaymentRecord(payment_id)`.  We model the store as two partial
maps from the payment-id string, one per key namespace (the reserved
`JwtSigningKey` slot is declared but never read or written by the source,
so it is omitted).  Rust `u64` timestamps are modelled as `Nat`, `i128`
amounts as `Int`, Soroban `String` as Lean `String`; `String::len` on the
ASCII inputs used here agrees with `String.length`.  Each public operation
takes the store and the ledger timestamp `current_time` explicitly and
returns its result together with the (possibly updated) store, mirroring
the sequence of `env.storage().persistent()` get/set calls in the source.
-/

/-- Error enum of the contract (`ContractError` in the source), with the
`u32` codes from the `#[contracterror]` declaration. -/
inductive ContractError where
  | NotFound
  | Expired
  | AlreadyPaid
  | InvalidTx
  | BadJWT
deriving DecidableEq, Repr

/-- Numeric code of each error, as in the `#[repr(u32)]` enum. -/
def ContractError.code : ContractError → Nat
  | .NotFound => 1
  | .Expired => 2
  | .AlreadyPaid => 3
  | .InvalidTx => 4
  | .BadJWT => 5

/-- Invoice status enum (`PaymentStatus` in the source). -/
inductive PaymentStatus where
  | Pending
  | Paid
  | Expired
deriving DecidableEq, Repr

/-- The `PaymentInvoice` struct of the source. -/
structure PaymentInvoice where
  payment_id : String
  site_id : String
  url_hash : String
  amount : Int
  created_at : Nat
  expires_at : Nat
  status : PaymentStatus
deriving DecidableEq, Repr

/-- The `PaymentRecord` struct of the source. -/
structure PaymentRecord where
  payment_id : String
  tx_hash : String
  payer_public_key : String
  verified_at : Nat
  site_id : String
  amount : Int
deriving DecidableEq, Repr

/-- The persistent store: one partial map per `DataKey` namespace. -/
structure Store where
  invoices : String → Option PaymentInvoice
  records : String → Option PaymentRecord

/-- The store before any operation has run: both namespaces empty. -/
def Store.empty : Store :=
  { invoices := fun _ => none, records := fun _ => none }

/-- `env.storage().persistent().set(&DataKey::PaymentInvoice(k), &v)`. -/
def Store.setInvoice (s : Store) (k : String) (v : PaymentInvoice) : Store :=
  { s with invoices := fun k2 => if k2 = k then some v else s.invoices k2 }

/-- `env.storage().persistent().set(&DataKey::PaymentRecord(k), &v)`. -/
def Store.setRecord (s : Store) (k : String) (v : PaymentRecord) : Store :=
  { s with records := fun k2 => if k2 = k then some v else s.records k2 }

/-- `generate_payment_id`: the source ignores all three arguments and
returns the constant string `pay_123456789`. -/
def generate_payment_id (_site_id _url_hash : String) (_timestamp : Nat) : String :=
  "pay_123456789"

/-- `generate_jwt`: the source ignores the record and returns the constant
token `pertoken.jwt.token`. -/
def generate_jwt (_payment_record : PaymentRecord) : String :=
  "pertoken.jwt.token"

/-- `extract_payment_id_from_jwt`: empty token yields the empty string,
any non-empty token yields the fixed id `pay_123456789`. -/
def extract_payment_id_from_jwt (jwt_token : String) : String :=
  if jwt_token.isEmpty then "" else "pay_123456789"

/-- `request_payment` (create_invoice): mint the payment id, build the
invoice with `expires_at = current_time + 3600` and status `Pending`,
store it under `PaymentInvoice(payment_id)`, and return it. -/
def request_payment (s : Store) (site_id url_hash : String) (amount : Int)
    (current_time : Nat) : PaymentInvoice × Store :=
  let payment_id := generate_payment_id site_id url_hash current_time
  let expires_at := current_time + 3600
  let invoice : PaymentInvoice :=
    { payment_id := payment_id
      site_id := site_id
      url_hash := url_hash
      amount := amount
      created_at := current_time
      expires_at := expires_at
      status := .Pending }
  (invoice, s.setInvoice payment_id invoice)

/-- `submit_payment`: look up the invoice (else `NotFound`), check expiry
(`Expired`), check status (`AlreadyPaid`), check `tx_hash.len() < 10`
(`InvalidTx`); on success write the `Paid` invoice and the new record and
return the minted token. -/
def submit_payment (s : Store) (payment_id tx_hash payer_public_key : String)
    (current_time : Nat) : Except ContractError String × Store :=
  match s.invoices payment_id with
  | none => (.error .NotFound, s)
  | some invoice =>
    if current_time > invoice.expires_at then
      (.error .Expired, s)
    else if invoice.status = .Paid then
      (.error .AlreadyPaid, s)
    else if tx_hash.length < 10 then
      (.error .InvalidTx, s)
    else
      let payment_record : PaymentRecord :=
        { payment_id := payment_id
          tx_hash := tx_hash
          payer_public_key := payer_public_key
          verified_at := current_time
          site_id := invoice.site_id
          amount := invoice.amount }
      let invoice2 := { invoice with status := PaymentStatus.Paid }
      let s2 := (s.setInvoice payment_id invoice2).setRecord payment_id payment_record
      (.ok (generate_jwt payment_record), s2)

/-- `get_payment_invoice`: pure lookup. -/
def get_payment_invoice (s : Store) (payment_id : String) : Option PaymentInvoice :=
  s.invoices payment_id

/-- `get_payment_record`: pure lookup. -/
def get_payment_record (s : Store) (payment_id : String) : Option PaymentRecord :=
  s.records payment_id

/-- `verify_jwt` (resolve_token): extract the payment id; empty id means
`BadJWT`; otherwise look up the record (`NotFound` if absent). -/
def verify_jwt (s : Store) (jwt_token : String) : Except ContractError PaymentRecord :=
  let payment_id := extract_payment_id_from_jwt jwt_token
  if payment_id.isEmpty then
    .error .BadJWT
  else
    match s.records payment_id with
    | none => .error .NotFound
    | some record => .ok record

/-- One invocation of a public operation, with its arguments and the
ledger timestamp at the time of the call. -/
inductive Op where
  | requestPayment (site_id url_hash : String) (amount : Int) (now : Nat)
  | submitPayment (payment_id tx_hash payer_public_key : String) (now : Nat)
  | getPaymentInvoice (payment_id : String)
  | getPaymentRecord (payment_id : String)
  | verifyJwt (token : String)

/-- Store effect of one public operation (the read-only operations
`get_payment_invoice`, `get_payment_record` and `verify_jwt` perform no
`set` call in the source, so they leave the store unchanged). -/
def applyOp (s : Store) : Op → Store
  | .requestPayment site_id url_hash amount now =>
      (request_payment s site_id url_hash amount now).2
  | .submitPayment payment_id tx_hash payer_public_key now =>
      (submit_payment s payment_id tx_hash payer_public_key now).2
  | .getPaymentInvoice _ => s
  | .getPaymentRecord _ => s
  | .verifyJwt _ => s

/-- Run a sequence of public operations from a starting store. -/
def execOps (s : Store) (ops : List Op) : Store :=
  ops.foldl applyOp s

/-- A store is reachable when some sequence of public operations produces
it from the empty store. -/
def Reachable (s : Store) : Prop :=
  ∃ ops : List Op, execOps Store.empty ops = s

/-- C7: `request_payment` returns and persists an invoice with
`created_at = now`, `expires_at = created_at + 3600`, status `Pending`,
carrying the given `site_id`, `url_hash` and `amount`, stored under the
invoice key of its `payment_id`. -/
theorem C7_request_payment_postcondition (s : Store) (site_id url_hash : String)
    (amount : Int) (now : Nat) :
    (request_payment s site_id url_hash amount now).1.created_at = now ∧
    (request_payment s site_id url_hash amount now).1.expires_at =
      (request_payment s site_id url_hash amount now).1.created_at + 3600 ∧
    (request_payment s site_id url_hash amount now).1.status = .Pending ∧
    (request_payment s site_id url_hash amount now).1.site_id = site_id ∧
    (request_payment s site_id url_hash amount now).1.url_hash = url_hash ∧
    (request_payment s site_id url_hash amount now).1.amount = amount ∧
    (request_payment s site_id url_hash amount now).2.invoices
        ((request_payment s site_id url_hash amount now).1.payment_id) =
      some (request_payment s site_id url_hash amount now).1 := by
  refine ⟨rfl, rfl, rfl, rfl, rfl, rfl, ?_⟩
  simp [request_payment, Store.setInvoice, generate_payment_id]

/-- C8: `submit_payment` on a payment id with no stored invoice fails with
`NotFound`, for every `tx_hash`, `payer_public_key` and current time. -/
theorem C8_submit_payment_not_found (s : Store) (p tx pk : String) (now : Nat)
    (h : s.invoices p = none) :
    (submit_payment s p tx pk now).1 = .error .NotFound := by
  simp [submit_payment, h]

/-- Witness for C8 at the empty store. -/
theorem C8_submit_payment_not_found_witness :
    Store.empty.invoices "unknown_id" = none ∧
    (submit_payment Store.empty "unknown_id" "tx_hash_123" "payer_key" 1000).1 =
      .error .NotFound :=
  ⟨rfl, C8_submit_payment_not_found Store.empty "unknown_id" "tx_hash_123"
    "payer_key" 1000 rfl⟩

/-- C2: the guards of `submit_payment` fire in the order `NotFound`,
`Expired`, `AlreadyPaid`, `InvalidTx`, each short-circuiting: the
`Expired` branch needs no assumption on the status or `tx_hash`, the
`AlreadyPaid` branch none on `tx_hash`. -/
theorem C2_submit_payment_guard_order (s : Store) (p tx pk : String) (now : Nat) :
    (s.invoices p = none → (submit_payment s p tx pk now).1 = .error .NotFound) ∧
    (∀ inv, s.invoices p = some inv → inv.expires_at < now →
      (submit_payment s p tx pk now).1 = .error .Expired) ∧
    (∀ inv, s.invoices p = some inv → now ≤ inv.expires_at →
      inv.status = .Paid →
      (submit_payment s p tx pk now).1 = .error .AlreadyPaid) ∧
    (∀ inv, s.invoices p = some inv → now ≤ inv.expires_at →
      inv.status ≠ .Paid → tx.length < 10 →
      (submit_payment s p tx pk now).1 = .error .InvalidTx) := by
  refine ⟨?_, ?_, ?_, ?_⟩
  · intro h
    simp [submit_payment, h]
  · intro inv h hlt
    simp [submit_payment, h, hlt]
  · intro inv h hle hpaid
    simp [submit_payment, h, hpaid, not_lt.mpr hle]
  · intro inv h hle hpaid hlen
    simp [submit_payment, h, hpaid, hlen, not_lt.mpr hle]

/-- Witness for C2: a Paid invoice past its expiry is rejected as
`Expired`, not `AlreadyPaid`. -/
theorem C2_submit_payment_guard_order_witness :
    (submit_payment (Store.empty.setInvoice "pay_123456789"
        { payment_id := "pay_123456789", site_id := "site", url_hash := "hash",
          amount := 5, created_at := 0, expires_at := 10,
          status := .Paid }) "pay_123456789" "tx" "payer" 11).1 =
      .error .Expired :=
  (C2_submit_payment_guard_order _ "pay_123456789" "tx" "payer" 11).2.1
    _ rfl (by decide)

/-- C3: whenever `submit_payment` returns an error, the store is left
completely unchanged: both writes happen on success or not at all. -/
theorem C3_submit_payment_error_store_unchanged (s : Store) (p tx pk : String)
    (now : Nat) (e : ContractError)
    (h : (submit_payment s p tx pk now).1 = .error e) :
    (submit_payment s p tx pk now).2 = s := by
  unfold submit_payment at h ⊢
  cases hinv : s.invoices p with
  | none => simp
  | some invoice =>
    simp only [hinv] at h ⊢
    split_ifs at h ⊢ <;> simp_all

/-- Witness for C3 at the empty store, where the error is `NotFound`. -/
theorem C3_submit_payment_error_store_unchanged_witness :
    (submit_payment Store.empty "pay_123456789" "tx_hash_1234" "payer" 0).2 =
      Store.empty :=
  C3_submit_payment_error_store_unchanged Store.empty "pay_123456789"
    "tx_hash_1234" "payer" 0 .NotFound rfl

/-- C4: on a stored Pending invoice, with the current time at most
`expires_at` and a `tx_hash` of length at least 10, `submit_payment`
succeeds, the stored invoice becomes Paid with all other fields
unchanged, and the stored record snapshots the invoice's `site_id` and
`amount`, carries the submitted `tx_hash` and `payer_public_key`, the
invoice's `payment_id`, and `verified_at = now`. -/
theorem C4_submit_payment_success_postcondition (s : Store)
    (inv : PaymentInvoice) (tx pk : String) (now : Nat)
    (hinv : s.invoices inv.payment_id = some inv)
    (hstat : inv.status = .Pending)
    (hexp : now ≤ inv.expires_at)
    (hlen : 10 ≤ tx.length) :
    (submit_payment s inv.payment_id tx pk now).1 = .ok "pertoken.jwt.token" ∧
    (submit_payment s inv.payment_id tx pk now).2.invoices inv.payment_id =
      some { inv with status := .Paid } ∧
    (submit_payment s inv.payment_id tx pk now).2.records inv.payment_id =
      some { payment_id := inv.payment_id, tx_hash := tx,
             payer_public_key := pk, verified_at := now,
             site_id := inv.site_id, amount := inv.amount } := by
  have h1 : ¬ inv.expires_at < now := not_lt.mpr hexp
  have h2 : ¬ inv.status = PaymentStatus.Paid := by simp [hstat]
  have h3 : ¬ tx.length < 10 := not_lt.mpr hlen
  refine ⟨?_, ?_, ?_⟩ <;>
    simp [submit_payment, hinv, h1, h2, h3, Store.setInvoice, Store.setRecord,
      generate_jwt]

/-- Witness for C4 on a freshly stored Pending invoice. -/
theorem C4_submit_payment_success_postcondition_witness :
    (submit_payment (Store.empty.setInvoice "pay_123456789"
        { payment_id := "pay_123456789", site_id := "site", url_hash := "hash",
          amount := 5, created_at := 0, expires_at := 3600,
          status := .Pending }) "pay_123456789" "0123456789" "payer" 7).1 =
      .ok "pertoken.jwt.token" ∧
    (submit_payment (Store.empty.setInvoice "pay_123456789"
        { payment_id := "pay_123456789", site_id := "site", url_hash := "hash",
          amount := 5, created_at := 0, expires_at := 3600,
          status := .Pending }) "pay_123456789" "0123456789" "payer" 7).2.invoices
        "pay_123456789" =
      some { payment_id := "pay_123456789", site_id := "site", url_hash := "hash",
             amount := 5, created_at := 0, expires_at := 3600,
             status := .Paid } ∧
    (submit_payment (Store.empty.setInvoice "pay_123456789"
        { payment_id := "pay_123456789", site_id := "site", url_hash := "hash",
          amount := 5, created_at := 0, expires_at := 3600,
          status := .Pending }) "pay_123456789" "0123456789" "payer" 7).2.records
        "pay_123456789" =
      some { payment_id := "pay_123456789", tx_hash := "0123456789",
             payer_public_key := "payer", verified_at := 7,
             site_id := "site", amount := 5 } :=
  C4_submit_payment_success_postcondition _
    { payment_id := "pay_123456789", site_id := "site", url_hash := "hash",
      amount := 5, created_at := 0, expires_at := 3600, status := .Pending }
    "0123456789" "payer" 7 rfl rfl (by decide) (by decide)

/-- C9: `verify_jwt` fails with `BadJWT` exactly on the empty token (the
only malformedness the source checks), fails with `NotFound` on a
non-empty token whose extracted payment id has no stored record, and
never writes to the store. -/
theorem C9_verify_jwt_errors (s : Store) (t : String) :
    (t.isEmpty = true → verify_jwt s t = .error .BadJWT) ∧
    (t.isEmpty = false →
      s.records (extract_payment_id_from_jwt t) = none →
      verify_jwt s t = .error .NotFound) ∧
    applyOp s (.verifyJwt t) = s := by
  have e1 : "".isEmpty = true := rfl
  have e2 : "pay_123456789".isEmpty = false := rfl
  refine ⟨?_, ?_, rfl⟩
  · intro h
    simp [verify_jwt, extract_payment_id_from_jwt, h, e1]
  · intro h hn
    simp only [extract_payment_id_from_jwt, h, if_false, Bool.false_eq_true] at hn
    simp [verify_jwt, extract_payment_id_from_jwt, h, hn, e2]

/-- Witness for C9: the empty token yields `BadJWT`, and a non-empty
token over the empty store yields `NotFound`. -/
theorem C9_verify_jwt_errors_witness :
    verify_jwt Store.empty "" = .error .BadJWT ∧
    verify_jwt Store.empty "pertoken.jwt.token" = .error .NotFound :=
  ⟨(C9_verify_jwt_errors Store.empty "").1 rfl,
   (C9_verify_jwt_errors Store.empty "pertoken.jwt.token").2.1 rfl rfl⟩

/-- C10: token resolution ignores everything about a token except
emptiness: any two non-empty tokens resolve identically, namely to the
outcome of looking up the fixed payment id `pay_123456789`. -/
theorem C10_verify_jwt_token_insensitive (s : Store) (t1 t2 : String)
    (h1 : t1.isEmpty = false) (h2 : t2.isEmpty = false) :
    verify_jwt s t1 = verify_jwt s t2 ∧
    verify_jwt s t1 = (match s.records "pay_123456789" with
      | none => .error .NotFound
      | some r => .ok r) := by
  have e2 : "pay_123456789".isEmpty = false := rfl
  constructor <;>
    simp [verify_jwt, extract_payment_id_from_jwt, h1, h2, e2]

/-- Witness for C10 with two unrelated non-empty tokens over the empty
store. -/
theorem C10_verify_jwt_token_insensitive_witness :
    verify_jwt Store.empty "a" = verify_jwt Store.empty "totally.different" ∧
    verify_jwt Store.empty "a" = (match Store.empty.records "pay_123456789" with
      | none => .error .NotFound
      | some r => .ok r) :=
  C10_verify_jwt_token_insensitive Store.empty "a" "totally.different" rfl rfl

/-- C6: the id-generation stub makes two distinct invocations of
`request_payment` return the same `payment_id`, contradicting the claimed
uniqueness of returned payment identifiers. -/
theorem C6_payment_id_reused :
    (request_payment Store.empty "siteA" "hashA" 1 0).1.payment_id =
      (request_payment (request_payment Store.empty "siteA" "hashA" 1 0).2
        "siteB" "hashB" 2 100).1.payment_id :=
  rfl

/-- C1: a reachable state violating the claimed invariant: after
`request_payment`, a successful `submit_payment`, and a second
`request_payment`, the record for `pay_123456789` exists while the stored
invoice under the same id has status `Pending`, not `Paid`. -/
theorem C1_invariant_violated :
    (execOps Store.empty
        [Op.requestPayment "site" "hash" 5 0,
         Op.submitPayment "pay_123456789" "0123456789" "payer" 0,
         Op.requestPayment "site" "hash" 5 0]).records "pay_123456789" =
      some { payment_id := "pay_123456789", tx_hash := "0123456789",
             payer_public_key := "payer", verified_at := 0,
             site_id := "site", amount := 5 } ∧
    (execOps Store.empty
        [Op.requestPayment "site" "hash" 5 0,
         Op.submitPayment "pay_123456789" "0123456789" "payer" 0,
         Op.requestPayment "site" "hash" 5 0]).invoices "pay_123456789" =
      some { payment_id := "pay_123456789", site_id := "site",
             url_hash := "hash", amount := 5, created_at := 0,
             expires_at := 3600, status := .Pending } :=
  ⟨rfl, rfl⟩

/-- Case analysis on `submit_payment`: either some guard fired, an error
is returned and the store is untouched, or the stored invoice was found
unexpired and unpaid with a long-enough `tx_hash`, the constant token is
returned, and both writes land. -/
theorem submit_payment_cases (s : Store) (p tx pk : String) (now : Nat) :
    ((∃ e, (submit_payment s p tx pk now).1 = .error e) ∧
      (submit_payment s p tx pk now).2 = s) ∨
    (∃ invoice, s.invoices p = some invoice ∧
      invoice.status ≠ PaymentStatus.Paid ∧
      (submit_payment s p tx pk now).1 = .ok "pertoken.jwt.token" ∧
      (submit_payment s p tx pk now).2 =
        (s.setInvoice p { invoice with status := PaymentStatus.Paid }).setRecord
          p { payment_id := p, tx_hash := tx, payer_public_key := pk,
              verified_at := now, site_id := invoice.site_id,
              amount := invoice.amount }) := by
  unfold submit_payment
  cases hinv : s.invoices p with
  | none => exact Or.inl ⟨⟨.NotFound, rfl⟩, rfl⟩
  | some invoice =>
    dsimp only
    split_ifs with h1 h2 h3
    · exact Or.inl ⟨⟨.Expired, rfl⟩, rfl⟩
    · exact Or.inl ⟨⟨.AlreadyPaid, rfl⟩, rfl⟩
    · exact Or.inl ⟨⟨.InvalidTx, rfl⟩, rfl⟩
    · exact Or.inr ⟨invoice, rfl, h2, rfl, rfl⟩

/-- Every invoice the program ever stores sits under the key
`pay_123456789` and carries that same string in its `payment_id` field. -/
def InvoiceKeysFixed (s : Store) : Prop :=
  ∀ k inv, s.invoices k = some inv →
    k = "pay_123456789" ∧ inv.payment_id = "pay_123456789"

theorem invoiceKeysFixed_empty : InvoiceKeysFixed Store.empty := by
  intro k inv h
  simp [Store.empty] at h

theorem invoiceKeysFixed_applyOp (s : Store) (hs : InvoiceKeysFixed s)
    (op : Op) : InvoiceKeysFixed (applyOp s op) := by
  cases op with
  | requestPayment site_id url_hash amount now =>
    intro k inv h
    simp only [applyOp, request_payment, generate_payment_id,
      Store.setInvoice] at h
    by_cases hk : k = "pay_123456789"
    · subst hk
      simp at h
      exact ⟨rfl, by rw [← h]⟩
    · simp [hk] at h
      exact hs k inv h
  | submitPayment p tx pk now =>
    intro k inv h
    replace h : (submit_payment s p tx pk now).2.invoices k = some inv := h
    rcases submit_payment_cases s p tx pk now with ⟨_, hsame⟩ |
      ⟨invoice, hinv, _, _, hs2⟩
    · rw [hsame] at h
      exact hs k inv h
    · rw [hs2] at h
      simp only [Store.setRecord, Store.setInvoice] at h
      obtain ⟨hp, hpid⟩ := hs p invoice hinv
      by_cases hk : k = p
      · subst hk
        simp at h
        exact ⟨hp, by rw [← h]; exact hpid⟩
      · simp [hk] at h
        exact hs k inv h
  | getPaymentInvoice p => exact hs
  | getPaymentRecord p => exact hs
  | verifyJwt t => exact hs

theorem reachable_invoiceKeysFixed (s : Store) (h : Reachable s) :
    InvoiceKeysFixed s := by
  obtain ⟨ops, rfl⟩ := h
  suffices hgen : ∀ l s0, InvoiceKeysFixed s0 → InvoiceKeysFixed (execOps s0 l) by
    exact hgen ops Store.empty invoiceKeysFixed_empty
  intro l
  induction l with
  | nil => intro s0 h0; exact h0
  | cons op rest ih =>
    intro s0 h0
    exact ih (applyOp s0 op) (invoiceKeysFixed_applyOp s0 h0 op)

/-- C5: in any reachable store, the token minted by a successful
`submit_payment` resolves through `verify_jwt` against the resulting
store to a record whose `payment_id` equals the invoice's. -/
theorem C5_round_trip (s : Store) (hs : Reachable s) (p tx pk : String)
    (now : Nat) (tok : String)
    (hok : (submit_payment s p tx pk now).1 = .ok tok)
    (inv : PaymentInvoice) (hinv : s.invoices p = some inv) :
    ∃ r, verify_jwt (submit_payment s p tx pk now).2 tok = .ok r ∧
      r.payment_id = inv.payment_id := by
  rcases submit_payment_cases s p tx pk now with ⟨⟨e, he⟩, _⟩ |
    ⟨invoice, hinv2, _, hok2, hs2⟩
  · rw [hok] at he
    exact absurd he (by simp)
  · rw [hinv] at hinv2
    obtain rfl : inv = invoice := Option.some.inj hinv2
    rw [hok] at hok2
    obtain rfl : tok = "pertoken.jwt.token" := Except.ok.inj hok2
    obtain ⟨hp, hpid⟩ := reachable_invoiceKeysFixed s hs p inv hinv
    subst hp
    rw [hs2]
    refine ⟨{ payment_id := "pay_123456789", tx_hash := tx,
              payer_public_key := pk,
              verified_at := now, site_id := inv.site_id,
              amount := inv.amount },
      ?_, hpid.symm⟩
    have e2 : ("pertoken.jwt.token").isEmpty = false := rfl
    have e3 : ("pay_123456789").isEmpty = false := rfl
    simp [verify_jwt, extract_payment_id_from_jwt, e2, e3, Store.setRecord,
      Store.setInvoice]

/-- Witness for C5: one invoice created at time 0 and paid at time 0. -/
theorem C5_round_trip_witness :
    ∃ r, verify_jwt (submit_payment
        (execOps Store.empty [Op.requestPayment "site" "hash" 5 0])
        "pay_123456789" "0123456789" "payer" 0).2 "pertoken.jwt.token" =
        .ok r ∧
      r.payment_id = "pay_123456789" :=
  C5_round_trip (execOps Store.empty [Op.requestPayment "site" "hash" 5 0])
    ⟨[Op.requestPayment "site" "hash" 5 0], rfl⟩
    "pay_123456789" "0123456789" "payer" 0 "pertoken.jwt.token" rfl
    { payment_id := "pay_123456789", site_id := "site", url_hash := "hash",
      amount := 5, created_at := 0, expires_at := 3600, status := .Pending }
    rfl
